import Mathlib

/-!
Shallow embedding of `cmd/ec2-ssh-proxy/main.go` (ojima-h/ec2-ssh-proxy).

The program is a linear pipeline: parse CLI arguments and the ProxyCommand
hostname, look up an EC2 instance, push an SSH public key via EC2 Instance
Connect, start an SSM session, and exec the `session-manager-plugin` binary
while ignoring interactive signals.

External collaborators (AWS API calls, `exec.LookPath`, `cmd.Run`, the
filesystem, the home directory) are modelled as oracle functions supplied in
records; every call the program makes to a collaborator is additionally
recorded in an explicit event trace so that ordering and absence properties
(e.g. "no StartSession request is issued", "no TerminateSession call occurs")
can be stated.

Go's `regexp` package is modelled by an executable matcher for exactly the
regular-expression fragment this program can produce and the concrete claims
exercise: literal characters, `.`, the character class `[\w-]`, `+` on a
single-character atom, and (named) capture groups, with Go's unanchored
leftmost-first greedy-backtracking match semantics and `SubexpNames` /
`FindStringSubmatch` result conventions (index 0 is the whole match, a group
that did not participate yields `""`, the result is `nil` — modelled as
`none` — when there is no match at all). Constructs outside this fragment
make the modelled compiler return an error; all general theorems are stated
conditionally on this compiler succeeding.
-/

namespace Ec2SshProxy

/-! Section: the Go-level result type

`GoResult` distinguishes an error returned as a value (Go `error`) from a
runtime panic (e.g. an out-of-range slice index), which aborts the process
with a stack trace instead of the `run()`-level error report. -/

inductive GoResult (α : Type) where
  | ok (a : α)
  | error (msg : String)
  | panic (msg : String)
  deriving Repr, DecidableEq

/-! Section: strings.ReplaceAll -/

/-- Models Go `strings.ReplaceAll`: replace every non-overlapping occurrence
of `pat`, scanning left to right. Fuel is the string length; each step
consumes at least one character. -/
def replaceAllAux (pat rep : List Char) : Nat → List Char → List Char
  | 0, s => s
  | _ + 1, [] => []
  | fuel + 1, c :: rest =>
    if pat ≠ [] ∧ pat.isPrefixOf (c :: rest) then
      rep ++ replaceAllAux pat rep fuel ((c :: rest).drop pat.length)
    else
      c :: replaceAllAux pat rep fuel rest

def replaceAll (s pat rep : String) : String :=
  String.mk (replaceAllAux pat.toList rep.toList s.toList.length s.toList)

/-! Section: the regexp fragment -/

/-- Go regexp `\w` is `[0-9A-Za-z_]`; the class `[\w-]` also accepts
the hyphen. -/
def isWordDash (c : Char) : Bool :=
  c.isAlphanum || c == '_' || c == '-'

/-- Single-character atoms of the fragment. -/
inductive Atom where
  | lit (c : Char)
  | dot
  | wordDash
  deriving Repr, DecidableEq

def atomMatches : Atom → Char → Bool
  | .lit c, d => c == d
  | .dot, _ => true
  | .wordDash, d => isWordDash d

/-- Regular expressions of the fragment. `group i r` is capture group number
`i` (numbered from 1 in order of opening parentheses, as in Go). `plus a`
is `a+` for a single-character atom `a`. -/
inductive RE where
  | eps
  | atom (a : Atom)
  | plus (a : Atom)
  | group (i : Nat) (r : RE)
  | seq (r₁ r₂ : RE)
  deriving Repr

/-- Length of the maximal run of characters matching atom `a` at the front
of the list. -/
def runLenAux (a : Atom) : List Char → Nat
  | [] => 0
  | c :: cs => if atomMatches a c then runLenAux a cs + 1 else 0

/-- Backtracking choice for `a+`: try consuming `n` characters first
(greedy), then fewer, at least one. All `n` leading characters are known to
match the atom when this is called with the maximal run length. -/
def tryLens (pos : Nat) (caps : List (Option (Nat × Nat)))
    (k : Nat → List (Option (Nat × Nat)) → Option (Nat × List (Option (Nat × Nat)))) :
    Nat → Option (Nat × List (Option (Nat × Nat)))
  | 0 => none
  | m + 1 =>
    match k (pos + (m + 1)) caps with
    | some r => some r
    | none => tryLens pos caps k m

/-- Continuation-passing backtracking matcher, giving the leftmost-first
(backtracking-preference) semantics Go's regexp documents for submatches.
`caps` maps group number `i` to slot `i - 1`. -/
def mmatch (s : List Char) :
    RE → Nat → List (Option (Nat × Nat)) →
    (Nat → List (Option (Nat × Nat)) → Option (Nat × List (Option (Nat × Nat)))) →
    Option (Nat × List (Option (Nat × Nat)))
  | .eps, pos, caps, k => k pos caps
  | .atom a, pos, caps, k =>
    match s.get? pos with
    | some c => if atomMatches a c then k (pos + 1) caps else none
    | none => none
  | .plus a, pos, caps, k => tryLens pos caps k (runLenAux a (s.drop pos))
  | .group i r, pos, caps, k =>
    mmatch s r pos caps (fun p2 c2 => k p2 (c2.set (i - 1) (some (pos, p2))))
  | .seq r₁ r₂, pos, caps, k =>
    mmatch s r₁ pos caps (fun p2 c2 => mmatch s r₂ p2 c2 k)

/-- A compiled pattern: the regex, the capture-group names in order of
opening parentheses (`""` for an unnamed group), and the group count. -/
structure Regex where
  re : RE
  names : List String
  ngroups : Nat
  deriving Repr

/-- Go `(*Regexp).SubexpNames`: index 0 is the whole match and carries the
empty name. -/
def Regex.subexpNames (re : Regex) : List String :=
  "" :: re.names

def isWordChar (c : Char) : Bool :=
  c.isAlphanum || c == '_'

/-- Read a `(?P<name>` group name up to the closing `>`. -/
def readName : Nat → List Char → List Char → Option (String × List Char)
  | 0, _, _ => none
  | _ + 1, [], _ => none
  | fuel + 1, c :: rest, acc =>
    if c == '>' then
      if acc.isEmpty then none else some (String.mk acc.reverse, rest)
    else if isWordChar c then readName fuel rest (c :: acc)
    else none

/-- After an atom, an optional `+` postfix. -/
def maybePlus (a : Atom) : List Char → RE × List Char
  | '+' :: rest => (.plus a, rest)
  | cs => (.atom a, cs)

/-- Recursive-descent parser for the fragment. Parses a sequence up to a
closing `)` (left unconsumed) or the end of input, returning the parsed
regex, the remaining input, the next free group number, and the names of the
groups opened, in order. Constructs outside the fragment yield an error,
matching the conditional statement of all general theorems. -/
def parseSeq : Nat → List Char → Nat →
    Except String (RE × List Char × Nat × List String)
  | 0, _, _ => .error "pattern too long"
  | _ + 1, [], nextIdx => .ok (.eps, [], nextIdx, [])
  | fuel + 1, cs@(c :: rest), nextIdx =>
    if c == ')' then .ok (.eps, cs, nextIdx, [])
    else if c == '(' then
      let header : Except String (String × List Char) :=
        match rest with
        | '?' :: 'P' :: '<' :: r2 =>
          match readName r2.length r2 [] with
          | none => .error "invalid named capture"
          | some (n, r3) => .ok (n, r3)
        | '?' :: _ => .error "unsupported group flag"
        | _ => .ok ("", rest)
      match header with
      | .error e => .error e
      | .ok (gname, body) =>
        match parseSeq fuel body (nextIdx + 1) with
        | .error e => .error e
        | .ok (inner, rem, idx2, names2) =>
          match rem with
          | ')' :: rem2 =>
            match rem2 with
            | '+' :: _ => .error "unsupported repetition on group"
            | '*' :: _ => .error "unsupported repetition on group"
            | '?' :: _ => .error "unsupported repetition on group"
            | _ =>
              match parseSeq fuel rem2 idx2 with
              | .error e => .error e
              | .ok (tail, rem3, idx3, names3) =>
                .ok (.seq (.group nextIdx inner) tail, rem3, idx3,
                     gname :: names2 ++ names3)
          | _ => .error "missing closing parenthesis"
    else if c == '[' then
      match rest with
      | '\\' :: 'w' :: '-' :: ']' :: rem =>
        let (r, rem2) := maybePlus Atom.wordDash rem
        match parseSeq fuel rem2 nextIdx with
        | .error e => .error e
        | .ok (tail, rem3, idx3, names3) => .ok (.seq r tail, rem3, idx3, names3)
      | _ => .error "unsupported character class"
    else if c == '.' then
      let (r, rem2) := maybePlus Atom.dot rest
      match parseSeq fuel rem2 nextIdx with
      | .error e => .error e
      | .ok (tail, rem3, idx3, names3) => .ok (.seq r tail, rem3, idx3, names3)
    else if c == '+' || c == '*' || c == '?' || c == '|' || c == '\\' ||
        c == '^' || c == '$' || c == '\x7b' || c == '\x7d' || c == ']' then
      .error "unsupported pattern construct"
    else
      let (r, rem2) := maybePlus (Atom.lit c) rest
      match parseSeq fuel rem2 nextIdx with
      | .error e => .error e
      | .ok (tail, rem3, idx3, names3) => .ok (.seq r tail, rem3, idx3, names3)

/-- Go rejects duplicate capture-group names at compile time. -/
def hasDupName : List String → Bool
  | [] => false
  | n :: ns => (n != "" && ns.contains n) || hasDupName ns

/-- Models `regexp.Compile` on the fragment. -/
def goRegexCompile (pat : String) : Except String Regex :=
  match parseSeq (pat.toList.length + 1) pat.toList 1 with
  | .error e => .error e
  | .ok (r, rem, _, names) =>
    match rem with
    | [] =>
      if hasDupName names then .error "duplicate capture group name"
      else .ok { re := r, names := names, ngroups := names.length }
    | _ => .error "unexpected closing parenthesis"

/-- Attempt a match starting exactly at `start`. -/
def matchAt (re : Regex) (s : List Char) (start : Nat) :
    Option (Nat × List (Option (Nat × Nat))) :=
  mmatch s re.re start (List.replicate re.ngroups none) (fun pos caps => some (pos, caps))

/-- Unanchored search: the leftmost start position with a match wins. -/
def searchFrom (re : Regex) (s : List Char) : Nat → Nat →
    Option (Nat × Nat × List (Option (Nat × Nat)))
  | remaining, start =>
    match matchAt re s start with
    | some (e, caps) => some (start, e, caps)
    | none =>
      match remaining with
      | 0 => none
      | r + 1 => searchFrom re s r (start + 1)

def sub (s : List Char) (a b : Nat) : String :=
  String.mk ((s.drop a).take (b - a))

/-- Models Go `(*Regexp).FindStringSubmatch`: `none` for Go's `nil` result
on no match; otherwise the whole match followed by one entry per group,
`""` for a group that did not participate. -/
def findStringSubmatch (re : Regex) (hostname : String) : Option (List String) :=
  let s := hostname.toList
  match searchFrom re s s.length 0 with
  | none => none
  | some (st, en, caps) =>
    some (sub s st en ::
      caps.map (fun c => match c with | none => "" | some (a, b) => sub s a b))

/-! Section: Params and hostname parsing (parseArgs, parseHostname) -/

/-- Mirrors the `Params` struct (main.go lines 65–73): field order
`Profile`, `User`, `Port`, `PublicKey`, `Id`, `Name`. Go's zero values are
the defaults. -/
structure Params where
  Profile : String := ""
  User : String := ""
  Port : Int := 0
  PublicKey : String := ""
  Id : String := ""
  Name : String := ""
  deriving Repr, DecidableEq

/-- One iteration body of the capture loop (main.go lines 133–144): three
independent `if` statements keyed on the subexpression name. -/
def setField (p : Params) (k v : String) : Params :=
  let p1 := if k == "name" then { p with Name := v } else p
  let p2 := if k == "id" then { p1 with Id := v } else p1
  if k == "profile" then { p2 with Profile := v } else p2

/-- The loop `for i, k := range keys { v := vals[i]; ... }` consumes `keys`
and `vals` in lockstep; indexing `vals[i]` past the end of `vals` — which
happens for every `i` at once when `FindStringSubmatch` returned `nil`,
modelled as the empty list — is a Go runtime panic. -/
def captureLoop : List String → List String → Params → GoResult Params
  | [], _, p => .ok p
  | _ :: _, [], _ => .panic "runtime error: index out of range"
  | k :: ks, v :: vs, p => captureLoop ks vs (setField p k v)

/-- The placeholder substitution of main.go lines 121–124, in source order:
`{name}`, then `{id}`, then `{profile}`. -/
def substPattern (pattern : String) : String :=
  replaceAll
    (replaceAll
      (replaceAll pattern "{name}" "(?P<name>[\\w-]+)")
      "{id}" "(?P<id>[\\w-]+)")
    "{profile}" "(?P<profile>[\\w-]+)"

/-- Mirrors `parseHostname` (main.go lines 120–154). The result distinguishes
the two explicit error returns from the runtime panic that the unguarded
`vals[i]` indexing causes on a non-matching hostname. -/
def parseHostname (hostname pattern : String) (p : Params) : GoResult Params :=
  match goRegexCompile (substPattern pattern) with
  | .error _ => .error ("invalid host name pattern: " ++ pattern)
  | .ok re =>
    match captureLoop re.subexpNames ((findStringSubmatch re hostname).getD []) p with
    | .ok p2 =>
      if p2.Name != "" && p2.Id != "" then
        .error "name and id could not be specified at same time"
      else if p2.Name == "" && p2.Id == "" then
        .error "neither name nor id is specified"
      else .ok p2
    | .error e => .error e
    | .panic m => .panic m

/-- The flag set of `parseArgs` (main.go lines 78–87) after the external
`go-flags` library has parsed the command line: each field's default is the
struct tag's `default:"..."` value, the zero value when the tag is absent.
The positional `HOST`/`PORT` arguments are required and carry no default. -/
structure Opts where
  pattern : String := "ec2.%(name)"
  profile : String := ""
  keyFile : String := "~/.ssh/id_rsa.pub"
  user : String := "ec2-user"
  host : String
  port : Int

/-- Environment oracles for `parseArgs`: `os.UserHomeDir` and
`ioutil.ReadFile`. -/
structure Env where
  userHomeDir : Except String String
  readFile : String → Except String String

/-- Models Go `strings.HasPrefix`. -/
def strHasPrefix (s pre : String) : Bool :=
  pre.toList.isPrefixOf s.toList

/-- Models `filepath.Join h rest` for the home-directory expansion; path
cleaning is irrelevant to every claim. -/
def filepathJoin (a b : String) : String :=
  a ++ "/" ++ b

/-- Mirrors `parseArgs` (main.go lines 75–118) after flag parsing: seed
`Params` from the flags, expand a leading `~/` in the key-file path, read
the public-key file, then call `parseHostname` (which may overwrite
`Profile`). -/
def parseArgs (opts : Opts) (env : Env) : GoResult Params :=
  let ret : Params := { Profile := opts.profile, User := opts.user, Port := opts.port }
  match
    (if strHasPrefix opts.keyFile "~/" then
      match env.userHomeDir with
      | .error e => Except.error e
      | .ok h => Except.ok (filepathJoin h (String.mk (opts.keyFile.toList.drop 2)))
    else Except.ok opts.keyFile) with
  | .error e => .error e
  | .ok kf =>
    match env.readFile kf with
    | .error e => .error e
    | .ok k => parseHostname opts.host opts.pattern { ret with PublicKey := k }

/-- The profile value the hostname match assigns, if any: the value aligned
with the (unique) subexpression named `"profile"`; later loop iterations
overwrite earlier ones, hence the last occurrence. -/
def lookupLast (keys vals : List String) (key : String) : Option String :=
  match keys, vals with
  | [], _ => none
  | _, [] => none
  | k :: ks, v :: vs =>
    match lookupLast ks vs key with
    | some w => some w
    | none => if k == key then some v else none

def profileCapture (pattern hostname : String) : Option String :=
  match goRegexCompile (substPattern pattern) with
  | .error _ => none
  | .ok re =>
    match findStringSubmatch re hostname with
    | none => none
    | some vals => lookupLast re.subexpNames vals "profile"

/-- The outcome of the extraction phase of `parseHostname` (compile, match,
capture loop) when it completes without a panic: the `Params` record as it
stands when the name/id validity checks run. -/
def hostMatchResult (pattern hostname : String) (p : Params) : Option Params :=
  match goRegexCompile (substPattern pattern) with
  | .error _ => none
  | .ok re =>
    match findStringSubmatch re hostname with
    | none => none
    | some vals =>
      match captureLoop re.subexpNames vals p with
      | .ok q => some q
      | .error _ => none
      | .panic _ => none

/-! Section: AWS request/response shapes

Pointer fields of the AWS SDK structs are modelled as plain values; the
program never passes `nil` for any of them, and the external API is assumed
to populate the fields the program reads (`aws.StringValue` of a populated
pointer is the string itself). -/

structure Filter where
  Name : String := ""
  Values : List String := []
  deriving Repr, DecidableEq

structure DescribeInstancesInput where
  Filters : List Filter := []
  InstanceIds : List String := []
  deriving Repr, DecidableEq

structure Placement where
  AvailabilityZone : String := ""
  deriving Repr, DecidableEq

structure Instance where
  InstanceId : String := ""
  Placement : Placement := {}
  deriving Repr, DecidableEq

structure Reservation where
  Instances : List Instance := []
  deriving Repr, DecidableEq

structure DescribeInstancesOutput where
  Reservations : List Reservation := []
  deriving Repr, DecidableEq

structure SendSSHPublicKeyInput where
  AvailabilityZone : String := ""
  InstanceId : String := ""
  InstanceOSUser : String := ""
  SSHPublicKey : String := ""
  deriving Repr, DecidableEq

structure StartSessionInput where
  Target : String := ""
  DocumentName : String := ""
  Parameters : List (String × List String) := []
  deriving Repr, DecidableEq

structure StartSessionOutput where
  SessionId : String := ""
  StreamUrl : String := ""
  TokenValue : String := ""
  deriving Repr, DecidableEq

/-! Section: events and the client model -/

inductive Signal where
  | SIGINT
  | SIGQUIT
  | SIGTSTP
  deriving Repr, DecidableEq

/-- Every externally observable action the program performs, in order.
`ssmTerminateSession` is included so that its absence from every trace can
be stated. -/
inductive Event where
  | describeInstances (inp : DescribeInstancesInput)
  | sendSSHPublicKey (inp : SendSSHPublicKeyInput)
  | ssmStartSession (inp : StartSessionInput)
  | ssmTerminateSession (sessionId : String)
  | lookPath (file : String)
  | execCommand (name : String) (args : List String)
  | signalIgnore (sigs : List Signal)
  | signalReset (sigs : List Signal)
  deriving Repr, DecidableEq

def Event.isTerminateSession : Event → Bool
  | .ssmTerminateSession _ => true
  | _ => false

def Event.isSsmStartSession : Event → Bool
  | .ssmStartSession _ => true
  | _ => false

def Event.isExecCommand : Event → Bool
  | .execCommand _ _ => true
  | _ => false

/-- The collaborators behind a `Client` (main.go lines 160–188): the three
AWS service clients as response oracles, the SSM client's signing region and
endpoint, and the process-level oracles used by the session-manager-plugin
wrapper (`exec.LookPath`, `cmd.Run`) plus `runtime.GOOS`. -/
structure ClientModel where
  describeInstances : DescribeInstancesInput → Except String DescribeInstancesOutput
  sendSSHPublicKey : SendSSHPublicKeyInput → Except String Unit
  ssmStartSession : StartSessionInput → Except String StartSessionOutput
  ssmSigningRegion : String := ""
  ssmEndpoint : String := ""
  lookPath : String → Except String String
  runCommand : String → List String → Except String Unit
  goos : String := "linux"

/-! Section: findInstance and sendPublicKey -/

/-- The `DescribeInstancesInput` built by `findInstance` (main.go lines
191–204): a `tag:Name` filter when `Name` is set, an instance-id list when
`Id` is set. -/
def describeInput (params : Params) : DescribeInstancesInput :=
  let in0 : DescribeInstancesInput := {}
  let in1 :=
    if params.Name != "" then
      { in0 with Filters := [{ Name := "tag:Name", Values := [params.Name] }] }
    else in0
  if params.Id != "" then { in1 with InstanceIds := [params.Id] } else in1

/-- Mirrors `Client.findInstance` (main.go lines 190–217). The
`len(...) == 0 || len(...) == 0` short-circuit check and the subsequent
`[0]`/`[0]` indexing are rendered as nested list matches. -/
def findInstance (c : ClientModel) (params : Params) :
    List Event × Except String (String × String) :=
  let inp := describeInput params
  ([Event.describeInstances inp],
    match c.describeInstances inp with
    | .error e => .error e
    | .ok out =>
      match out.Reservations with
      | [] => .error "ec2 instance is not found"
      | r :: _ =>
        match r.Instances with
        | [] => .error "ec2 instance is not found"
        | i :: _ => .ok (i.InstanceId, i.Placement.AvailabilityZone))

/-- Mirrors `Client.sendPublicKey` (main.go lines 219–232). -/
def sendPublicKey (c : ClientModel) (params : Params)
    (instanceId availabilityZone : String) : List Event × Except String Unit :=
  let inp : SendSSHPublicKeyInput :=
    { AvailabilityZone := availabilityZone, InstanceId := instanceId,
      InstanceOSUser := params.User, SSHPublicKey := params.PublicKey }
  ([Event.sendSSHPublicKey inp], c.sendSSHPublicKey inp)

/-! Section: the session-manager-plugin wrapper -/

/-- The error message built by `SessionManagerPluginImpl.check` (main.go
lines 275–284) when `exec.LookPath` fails. -/
def pluginNotFoundMsg : String :=
  "SessionManagerPlugin is not found. \n" ++
  "Please refer to SessionManager Documentation here: \n" ++
  "http://docs.aws.amazon.com/console/systems-manager/\n" ++
  "session-manager-plugin-not-found"

/-- Mirrors `SessionManagerPluginImpl.check`. -/
def pluginCheck (c : ClientModel) : List Event × Except String Unit :=
  ([Event.lookPath "session-manager-plugin"],
    match c.lookPath "session-manager-plugin" with
    | .error _ => .error pluginNotFoundMsg
    | .ok _ => .ok ())

def marshalParameters : List (String × List String) → String
  | [] => ""
  | (k, vs) :: rest => k ++ ":" ++ String.intercalate "," vs ++ ";" ++ marshalParameters rest

/-- Models `json.Marshal` of `ssm.StartSessionInput`. On this struct type
(strings and a map of string slices) `json.Marshal` cannot fail, so the dead
error branch of the source is dropped and the serializer is a total
deterministic function; the serialized bytes are opaque both to this program
and to the plugin-argument contract, so their exact layout is immaterial. -/
def marshalStartSessionInput (inp : StartSessionInput) : String :=
  "\x7b\"Target\":\"" ++ inp.Target ++ "\",\"DocumentName\":\"" ++
    inp.DocumentName ++ "\",\"Parameters\":\"" ++
    marshalParameters inp.Parameters ++ "\"\x7d"

/-- Models `json.Marshal` of `ssm.StartSessionOutput`; see
`marshalStartSessionInput`. -/
def marshalStartSessionOutput (out : StartSessionOutput) : String :=
  "\x7b\"SessionId\":\"" ++ out.SessionId ++ "\",\"StreamUrl\":\"" ++
    out.StreamUrl ++ "\",\"TokenValue\":\"" ++ out.TokenValue ++ "\"\x7d"

/-- The positional argument list passed to the plugin executable (main.go
lines 296–304): serialized response, signing region, the literal
`"StartSession"`, the profile, the serialized request, the endpoint. -/
def pluginArgs (params : Params) (region endpoint : String)
    (inp : StartSessionInput) (out : StartSessionOutput) : List String :=
  [marshalStartSessionOutput out, region, "StartSession", params.Profile,
   marshalStartSessionInput inp, endpoint]

/-- Mirrors `SessionManagerPluginImpl.ignoreUserSignals` (main.go lines
319–331): pick the platform signal set, `signal.Ignore` it, run the body,
and `defer signal.Reset` — the reset runs on every exit path of the body. -/
def ignoreUserSignals (goos : String) (f : List Event × Except String Unit) :
    List Event × Except String Unit :=
  let sig : List Signal :=
    if goos == "windows" then [.SIGINT]
    else [.SIGINT, .SIGQUIT, .SIGTSTP]
  (Event.signalIgnore sig :: (f.1 ++ [Event.signalReset sig]), f.2)

/-- Mirrors `SessionManagerPluginImpl.start` (main.go lines 286–317):
serialize request and response, build the command, and run it inside
`ignoreUserSignals`, forwarding the child's error. -/
def pluginStart (c : ClientModel) (params : Params) (region endpoint : String)
    (inp : StartSessionInput) (out : StartSessionOutput) :
    List Event × Except String Unit :=
  let args := pluginArgs params region endpoint inp out
  let r := ignoreUserSignals c.goos
    ([Event.execCommand "session-manager-plugin" args],
     c.runCommand "session-manager-plugin" args)
  match r.2 with
  | .error e => (r.1, .error e)
  | .ok _ => (r.1, .ok ())

/-! Section: startSession and the run pipeline -/

/-- The `ssm.StartSessionInput` built by `Client.startSession` (main.go
lines 240–246): fixed document name, the port as a decimal string. -/
def sessionInput (params : Params) (instanceId : String) : StartSessionInput :=
  { Target := instanceId, DocumentName := "AWS-StartSSHSession",
    Parameters := [("portNumber", [toString params.Port])] }

/-- Mirrors `Client.startSession` (main.go lines 234–258): plugin
availability check first, then the SSM StartSession request, then the plugin
handoff. No path issues a TerminateSession call. -/
def startSession (c : ClientModel) (params : Params) (instanceId : String) :
    List Event × Except String Unit :=
  let chk := pluginCheck c
  match chk.2 with
  | .error e => (chk.1, .error e)
  | .ok _ =>
    let inp := sessionInput params instanceId
    match c.ssmStartSession inp with
    | .error e => (chk.1 ++ [Event.ssmStartSession inp], .error e)
    | .ok out =>
      let st := pluginStart c params c.ssmSigningRegion c.ssmEndpoint inp out
      (chk.1 ++ [Event.ssmStartSession inp] ++ st.1, st.2)

/-- The pipeline of `run` (main.go lines 41–58) from the point where the
`Params` record exists: each stage receives the same immutable record. -/
def runFromParams (c : ClientModel) (params : Params) :
    List Event × Except String Unit :=
  let fi := findInstance c params
  match fi.2 with
  | .error e => (fi.1, .error e)
  | .ok (instanceId, az) =>
    let sk := sendPublicKey c params instanceId az
    match sk.2 with
    | .error e => (fi.1 ++ sk.1, .error e)
    | .ok _ =>
      let ss := startSession c params instanceId
      (fi.1 ++ sk.1 ++ ss.1, ss.2)

def goWrap (r : List Event × Except String Unit) : List Event × GoResult Unit :=
  (r.1, match r.2 with
        | .error e => .error e
        | .ok _ => .ok ())

/-- Mirrors `run` (main.go lines 35–59): parse the arguments, then run the
pipeline on the resulting record. -/
def run (opts : Opts) (env : Env) (c : ClientModel) : List Event × GoResult Unit :=
  match parseArgs opts env with
  | .panic m => ([], .panic m)
  | .error e => ([], .error e)
  | .ok params => goWrap (runFromParams c params)

/-! Section: helper lemmas about the capture loop and parseArgs -/

theorem setField_Profile (p : Params) (k v : String) :
    (setField p k v).Profile = if k == "profile" then v else p.Profile := by
  simp only [setField]
  split
  · rfl
  · split <;> split <;> rfl

theorem captureLoop_profile :
    ∀ (keys vals : List String) (p q : Params),
      captureLoop keys vals p = .ok q →
      q.Profile = (lookupLast keys vals "profile").getD p.Profile := by
  intro keys
  induction keys with
  | nil =>
    intro vals p q h
    simp only [captureLoop, GoResult.ok.injEq] at h
    subst h
    simp [lookupLast]
  | cons k ks ih =>
    intro vals p q h
    cases vals with
    | nil => simp [captureLoop] at h
    | cons v vs =>
      have hrec := ih vs (setField p k v) q (by simpa [captureLoop] using h)
      rw [hrec]
      simp only [lookupLast]
      cases hl : lookupLast ks vs "profile" with
      | some w => simp
      | none =>
        simp only [Option.getD_none, setField_Profile]
        split <;> rfl

/-- Inversion of the validity checks at the end of `parseHostname`: an `ok`
result returns the post-loop record unchanged. -/
theorem checks_ok_eq {p2 p : Params}
    (h : (if p2.Name != "" && p2.Id != "" then
            GoResult.error "name and id could not be specified at same time"
          else if p2.Name == "" && p2.Id == "" then
            GoResult.error "neither name nor id is specified"
          else GoResult.ok p2) = GoResult.ok p) : p2 = p := by
  split at h
  · simp at h
  · split at h
    · simp at h
    · injection h

theorem parseHostname_ok_exactlyOne {hostname pattern : String} {p₀ p : Params}
    (h : parseHostname hostname pattern p₀ = .ok p) :
    (p.Name ≠ "" ∧ p.Id = "") ∨ (p.Name = "" ∧ p.Id ≠ "") := by
  unfold parseHostname at h
  split at h
  · simp at h
  · split at h
    · next p2 hcl =>
      split at h
      · simp at h
      · next h1 =>
        split at h
        · simp at h
        · next h2 =>
          injection h with h
          subst h
          simp only [Bool.and_eq_true, bne_iff_ne, ne_eq, beq_iff_eq, not_and] at h1 h2
          tauto
    · simp at h
    · simp at h

theorem parseHostname_profile {hostname pattern : String} {p₀ p : Params} {v : String}
    (hcap : profileCapture pattern hostname = some v)
    (h : parseHostname hostname pattern p₀ = .ok p) : p.Profile = v := by
  unfold profileCapture at hcap
  unfold parseHostname at h
  cases hc : goRegexCompile (substPattern pattern) with
  | error e => simp [hc] at hcap
  | ok re =>
    simp only [hc] at hcap h
    cases hm : findStringSubmatch re hostname with
    | none => simp [hm] at hcap
    | some vals =>
      simp only [hm, Option.getD_some] at h
      simp only [hm] at hcap
      cases hcl : captureLoop re.subexpNames vals p₀ with
      | ok p2 =>
        rw [hcl] at h
        have hp2 : p2 = p := checks_ok_eq h
        subst hp2
        rw [captureLoop_profile _ _ _ _ hcl, hcap]
        rfl
      | error e => rw [hcl] at h; simp at h
      | panic m => rw [hcl] at h; simp at h

theorem parseArgs_ok_parseHostname {opts : Opts} {env : Env} {p : Params}
    (h : parseArgs opts env = .ok p) :
    ∃ k, parseHostname opts.host opts.pattern
      { Profile := opts.profile, User := opts.user, Port := opts.port,
        PublicKey := k } = .ok p := by
  unfold parseArgs at h
  split at h
  · simp at h
  · split at h
    · simp at h
    · next k hk => exact ⟨k, h⟩

/-! Section: claim C1 — profile precedence -/

def C1opts : Opts :=
  { pattern := "{profile}-{name}", profile := "cli", keyFile := "/tmp/id_rsa.pub",
    host := "prod-myhost", port := 22 }

def C1env : Env :=
  { userHomeDir := Except.ok "/home/user", readFile := fun _ => Except.ok "ssh-rsa AAAA" }

def C1params : Params :=
  { Profile := "prod", User := "ec2-user", Port := 22, PublicKey := "ssh-rsa AAAA",
    Id := "", Name := "myhost" }

/-- Claim C1 counterexample: with pattern `{profile}-{name}`, hostname
`prod-myhost` (whose profile capture is `"prod"`, non-empty), and the CLI
flag `--profile cli` given non-empty, the resulting `Params.Profile` is
`"prod"`, not the CLI value `"cli"`: the hostname capture overwrites the
explicit flag, contradicting the claimed precedence. -/
theorem C1_counterexample :
    profileCapture "{profile}-{name}" "prod-myhost" = some "prod" ∧
    parseArgs C1opts C1env = .ok C1params ∧
    C1params.Profile = "prod" ∧ "prod" ≠ "cli" :=
  ⟨rfl, rfl, rfl, by decide⟩

/-- Claim C1 (amended): for every invocation where the hostname pattern
contains `{profile}` and the hostname matches it with a non-empty profile
capture `v`, the resulting `Params.Profile` equals `v` — the value extracted
from the hostname takes precedence over the `--profile` CLI flag, because
`parseHostname` runs after the flags are merged and overwrites `Profile`. -/
theorem C1_hostname_profile_overrides_cli
    (opts : Opts) (env : Env) (p : Params) (v : String)
    (hcap : profileCapture opts.pattern opts.host = some v) (hv : v ≠ "")
    (h : parseArgs opts env = .ok p) : p.Profile = v := by
  obtain ⟨k, hph⟩ := parseArgs_ok_parseHostname h
  exact parseHostname_profile hcap hph

/-- Claim C1 witness: the amended theorem applied at the concrete
counterexample input. -/
theorem C1_witness :
    profileCapture C1opts.pattern C1opts.host = some "prod" ∧ "prod" ≠ "" ∧
    parseArgs C1opts C1env = .ok C1params ∧ C1params.Profile = "prod" :=
  ⟨rfl, by decide, rfl,
    C1_hostname_profile_overrides_cli C1opts C1env C1params "prod" rfl (by decide) rfl⟩

/-! Section: claim C2 — behavior on a non-matching hostname -/

/-- Claim C2: `parseHostname` is claimed to be total and return an error on
a non-matching hostname. It is not: for pattern `ec2.{name}` and hostname
`other` (which the compiled regex does not match), `FindStringSubmatch`
returns `nil` and the unguarded `vals[i]` indexing in the loop is an
out-of-range panic, not an error return. -/
theorem C2_nonmatching_hostname_panics :
    parseHostname "other" "ec2.{name}" {} = .panic "runtime error: index out of range" :=
  rfl

/-! Section: claim C3 — the default of the pattern flag -/

def C3opts : Opts := { host := "ec2.myhost", port := 22 }

/-- Claim C3: the default of the `--pattern` flag is claimed to be
`ec2.{name}`, so that with no flags `ec2.myhost` resolves to `name=myhost`.
The struct tag actually says `default:"ec2.%(name)"`: the placeholder
substitution then finds no `{name}` to replace, the literal regex
`ec2.%(name)` does not match `ec2.myhost`, and `parseHostname` panics
instead of resolving `name=myhost` — which the intended default
`ec2.{name}` would produce. -/
theorem C3_default_pattern_bug :
    C3opts.pattern = "ec2.%(name)" ∧
    C3opts.pattern ≠ "ec2.{name}" ∧
    parseHostname "ec2.myhost" "ec2.%(name)" {} =
      .panic "runtime error: index out of range" ∧
    parseHostname "ec2.myhost" "ec2.{name}" {} = .ok { Name := "myhost" } :=
  ⟨rfl, by decide, rfl, rfl⟩

/-! Section: claim C4 — compensation after a started session -/

def C4instance : Instance :=
  { InstanceId := "i-0abc", Placement := { AvailabilityZone := "us-east-1a" } }

def C4client : ClientModel :=
  { describeInstances := fun _ => .ok { Reservations := [{ Instances := [C4instance] }] },
    sendSSHPublicKey := fun _ => .ok (),
    ssmStartSession := fun _ =>
      .ok { SessionId := "sess-1", StreamUrl := "wss://x", TokenValue := "tok" },
    ssmSigningRegion := "us-east-1",
    ssmEndpoint := "https://ssm.us-east-1.amazonaws.com",
    lookPath := fun _ => .ok "/usr/local/bin/session-manager-plugin",
    runCommand := fun _ _ =>
      .error "exec: session-manager-plugin: executable file not found in PATH",
    goos := "linux" }

def C4params : Params :=
  { Profile := "", User := "ec2-user", Port := 22, PublicKey := "k",
    Id := "i-0abc", Name := "" }

/-- Claim C4 counterexample: a run in which the availability check passed,
the SSM session was started, and the plugin executable then could not be
located when exec'd (`cmd.Run` fails with an executable-not-found error).
The claim says a terminate-session call is issued exactly once before the
error is returned; the trace contains zero terminate-session calls. -/
theorem C4_counterexample :
    Event.ssmStartSession (sessionInput C4params "i-0abc") ∈
      (startSession C4client C4params "i-0abc").1 ∧
    (startSession C4client C4params "i-0abc").2 =
      .error "exec: session-manager-plugin: executable file not found in PATH" ∧
    (startSession C4client C4params "i-0abc").1.countP Event.isTerminateSession = 0 ∧
    (startSession C4client C4params "i-0abc").1.countP Event.isTerminateSession ≠ 1 :=
  ⟨by decide, rfl, rfl, by decide⟩

/-- Claim C4 (amended): no terminate-session call is ever issued. When an
SSM session was already started and the plugin executable then cannot be
located at exec time, the exec error is returned directly and the started
session is not compensated; the eager availability check before
`StartSession` is the only protection against orphaned sessions. -/
theorem C4_no_termination_on_exec_failure
    (c : ClientModel) (params : Params) (instanceId : String)
    (w : String) (out : StartSessionOutput) (msg : String)
    (hchk : c.lookPath "session-manager-plugin" = .ok w)
    (hss : c.ssmStartSession (sessionInput params instanceId) = .ok out)
    (hrun : c.runCommand "session-manager-plugin"
        (pluginArgs params c.ssmSigningRegion c.ssmEndpoint
          (sessionInput params instanceId) out) = .error msg) :
    (startSession c params instanceId).2 = .error msg ∧
    Event.ssmStartSession (sessionInput params instanceId) ∈
      (startSession c params instanceId).1 ∧
    (startSession c params instanceId).1.countP Event.isTerminateSession = 0 := by
  have htrace : startSession c params instanceId =
      ([Event.lookPath "session-manager-plugin",
        Event.ssmStartSession (sessionInput params instanceId),
        Event.signalIgnore (if c.goos == "windows" then [Signal.SIGINT]
          else [Signal.SIGINT, Signal.SIGQUIT, Signal.SIGTSTP]),
        Event.execCommand "session-manager-plugin"
          (pluginArgs params c.ssmSigningRegion c.ssmEndpoint
            (sessionInput params instanceId) out),
        Event.signalReset (if c.goos == "windows" then [Signal.SIGINT]
          else [Signal.SIGINT, Signal.SIGQUIT, Signal.SIGTSTP])],
       .error msg) := by
    unfold startSession pluginCheck pluginStart ignoreUserSignals
    simp [hchk, hss, hrun]
  rw [htrace]
  refine ⟨rfl, by simp, ?_⟩
  simp [List.countP_cons, Event.isTerminateSession]

/-- Claim C4 witness: the amended theorem applied at the concrete run of the
counterexample. -/
theorem C4_witness :
    C4client.lookPath "session-manager-plugin" =
      .ok "/usr/local/bin/session-manager-plugin" ∧
    C4client.ssmStartSession (sessionInput C4params "i-0abc") =
      .ok { SessionId := "sess-1", StreamUrl := "wss://x", TokenValue := "tok" } ∧
    (startSession C4client C4params "i-0abc").2 =
      .error "exec: session-manager-plugin: executable file not found in PATH" ∧
    (startSession C4client C4params "i-0abc").1.countP Event.isTerminateSession = 0 := by
  have h := C4_no_termination_on_exec_failure C4client C4params "i-0abc"
    "/usr/local/bin/session-manager-plugin"
    { SessionId := "sess-1", StreamUrl := "wss://x", TokenValue := "tok" }
    "exec: session-manager-plugin: executable file not found in PATH"
    rfl rfl rfl
  exact ⟨rfl, rfl, h.1, h.2.2⟩

/-! Section: claim C5 — eager plugin check before StartSession -/

/-- Claim C5: whenever the transport plugin executable is not resolvable
(`exec.LookPath` fails), `startSession` returns the plugin-not-found error
and its entire external trace is the single LookPath probe — in particular
the SSM StartSession request is never issued, so no remote session is
created while the plugin is missing. -/
theorem C5_plugin_check_precedes_start_session
    (c : ClientModel) (params : Params) (instanceId : String) (msg : String)
    (h : c.lookPath "session-manager-plugin" = .error msg) :
    startSession c params instanceId =
      ([Event.lookPath "session-manager-plugin"], .error pluginNotFoundMsg) ∧
    ∀ e ∈ (startSession c params instanceId).1, e.isSsmStartSession = false := by
  have hs : startSession c params instanceId =
      ([Event.lookPath "session-manager-plugin"], .error pluginNotFoundMsg) := by
    unfold startSession pluginCheck
    simp [h]
  refine ⟨hs, ?_⟩
  rw [hs]
  intro e he
  simp only [List.mem_singleton] at he
  subst he
  rfl

def C5client : ClientModel :=
  { describeInstances := fun _ => .ok {},
    sendSSHPublicKey := fun _ => .ok (),
    ssmStartSession := fun _ => .ok {},
    lookPath := fun _ =>
      .error "exec: session-manager-plugin: executable file not found in PATH",
    runCommand := fun _ _ => .ok () }

/-- Claim C5 witness: the theorem applied at a concrete client whose
LookPath oracle fails. -/
theorem C5_witness :
    C5client.lookPath "session-manager-plugin" =
      .error "exec: session-manager-plugin: executable file not found in PATH" ∧
    startSession C5client {} "i-0abc" =
      ([Event.lookPath "session-manager-plugin"], .error pluginNotFoundMsg) :=
  ⟨rfl, (C5_plugin_check_precedes_start_session C5client {} "i-0abc"
    "exec: session-manager-plugin: executable file not found in PATH" rfl).1⟩

/-! Section: claim C6 — AmbiguousHost and UnresolvedHost -/

/-- Claim C6: for every pattern/hostname pair whose extraction (compile,
match, capture loop) completes and yields both `name` and `id` non-empty,
`parseHostname` fails with the ambiguous-host error; for every pair whose
extraction yields neither non-empty, it fails with the unresolved-host
error. In both cases the result is an error, so no `Params` record is
produced. -/
theorem C6_ambiguous_and_unresolved_errors
    (pattern hostname : String) (p₀ q : Params)
    (h : hostMatchResult pattern hostname p₀ = some q) :
    (q.Name ≠ "" → q.Id ≠ "" →
      parseHostname hostname pattern p₀ =
        .error "name and id could not be specified at same time") ∧
    (q.Name = "" → q.Id = "" →
      parseHostname hostname pattern p₀ =
        .error "neither name nor id is specified") := by
  unfold hostMatchResult at h
  unfold parseHostname
  cases hc : goRegexCompile (substPattern pattern) with
  | error e => simp [hc] at h
  | ok re =>
    simp only [hc] at h ⊢
    cases hm : findStringSubmatch re hostname with
    | none => simp [hm] at h
    | some vals =>
      simp only [hm, Option.getD_some] at h ⊢
      cases hcl : captureLoop re.subexpNames vals p₀ with
      | ok p2 =>
        simp only [hcl, Option.some.injEq] at h ⊢
        subst h
        constructor
        · intro hn hi
          simp [hn, hi]
        · intro hn hi
          simp [hn, hi]
      | error e => simp [hcl] at h
      | panic m => simp [hcl] at h

def C6paramsBoth : Params := { Id := "def", Name := "abc" }

/-- Claim C6 witness: the theorem applied at pattern `{name}.{id}` with
hostname `abc.def` (both captures non-empty, ambiguous) and at pattern
`ec2` with hostname `ec2` (a match with no captures at all, unresolved). -/
theorem C6_witness :
    hostMatchResult "{name}.{id}" "abc.def" {} = some C6paramsBoth ∧
    parseHostname "abc.def" "{name}.{id}" {} =
      .error "name and id could not be specified at same time" ∧
    hostMatchResult "ec2" "ec2" {} = some {} ∧
    parseHostname "ec2" "ec2" {} = .error "neither name nor id is specified" :=
  ⟨rfl,
   (C6_ambiguous_and_unresolved_errors "{name}.{id}" "abc.def" {} C6paramsBoth rfl).1
     (by decide) (by decide),
   rfl,
   (C6_ambiguous_and_unresolved_errors "ec2" "ec2" {} {} rfl).2 rfl rfl⟩

/-! Section: claim C7 — findInstance takes the first instance of the first
reservation -/

/-- Claim C7: for every successful DescribeInstances response, `findInstance`
fails with the instance-not-found error exactly when the response has zero
reservations or the first reservation has zero instances; otherwise it
returns the instance id and availability zone of the first instance of the
first reservation. -/
theorem C7_findInstance_first_of_first
    (c : ClientModel) (params : Params) (out : DescribeInstancesOutput)
    (h : c.describeInstances (describeInput params) = .ok out) :
    ((findInstance c params).2 = .error "ec2 instance is not found" ↔
      out.Reservations = [] ∨
        ∃ r rs, out.Reservations = r :: rs ∧ r.Instances = []) ∧
    (∀ r rs i is, out.Reservations = r :: rs → r.Instances = i :: is →
      (findInstance c params).2 = .ok (i.InstanceId, i.Placement.AvailabilityZone)) := by
  constructor
  · unfold findInstance
    simp only [h]
    cases hr : out.Reservations with
    | nil => simp
    | cons r rs =>
      cases hi : r.Instances with
      | nil => simp [hi]
      | cons i is => simp [hi]
  · intro r rs i is hr hi
    unfold findInstance
    simp only [h, hr, hi]

def C7instance : Instance :=
  { InstanceId := "i-111", Placement := { AvailabilityZone := "ap-northeast-1a" } }

def C7out : DescribeInstancesOutput :=
  { Reservations := [{ Instances := [C7instance] }] }

def C7client : ClientModel :=
  { describeInstances := fun _ => .ok C7out,
    sendSSHPublicKey := fun _ => .ok (),
    ssmStartSession := fun _ => .ok {},
    lookPath := fun _ => .ok "p",
    runCommand := fun _ _ => .ok () }

def C7params : Params := { Name := "myhost" }

/-- Claim C7 witness: the theorem applied at a concrete one-reservation,
one-instance response. -/
theorem C7_witness :
    C7client.describeInstances (describeInput C7params) = .ok C7out ∧
    (findInstance C7client C7params).2 = .ok ("i-111", "ap-northeast-1a") :=
  ⟨rfl, (C7_findInstance_first_of_first C7client C7params C7out rfl).2
    { Instances := [C7instance] } [] C7instance [] rfl rfl⟩

/-! Section: claim C8 — the exactly-one-of-name-id invariant -/

/-- Claim C8: every `Params` record produced by successful argument parsing
has exactly one of `Name`/`Id` non-empty; the `DescribeInstancesInput`
derived from it therefore carries exactly one of the name filter and the
instance-id list; and the whole downstream pipeline (`findInstance`,
`sendPublicKey`, `startSession`) runs on precisely this record — `run`
equals the stage pipeline applied to it, and the record is immutable. -/
theorem C8_exactly_one_name_or_id
    (opts : Opts) (env : Env) (p : Params)
    (h : parseArgs opts env = .ok p) :
    ((p.Name ≠ "" ∧ p.Id = "") ∨ (p.Name = "" ∧ p.Id ≠ "")) ∧
    (describeInput p).Filters.length + (describeInput p).InstanceIds.length = 1 ∧
    ∀ c, run opts env c = goWrap (runFromParams c p) := by
  obtain ⟨k, hph⟩ := parseArgs_ok_parseHostname h
  have hx := parseHostname_ok_exactlyOne hph
  refine ⟨hx, ?_, ?_⟩
  · rcases hx with ⟨hn, hi⟩ | ⟨hn, hi⟩
    · simp [describeInput, hn, hi]
    · simp [describeInput, hn, hi]
  · intro c
    unfold run
    rw [h]

def C8opts : Opts := { pattern := "ec2.{name}", host := "ec2.myhost", port := 2222 }

def C8env : Env :=
  { userHomeDir := Except.ok "/home/u", readFile := fun _ => Except.ok "KEY" }

def C8params : Params :=
  { Profile := "", User := "ec2-user", Port := 2222, PublicKey := "KEY",
    Id := "", Name := "myhost" }

/-- Claim C8 witness: the theorem applied at a concrete invocation that
also exercises the `~/` key-path expansion. -/
theorem C8_witness :
    parseArgs C8opts C8env = .ok C8params ∧
    ((C8params.Name ≠ "" ∧ C8params.Id = "") ∨
      (C8params.Name = "" ∧ C8params.Id ≠ "")) :=
  ⟨rfl, (C8_exactly_one_name_or_id C8opts C8env C8params rfl).1⟩

/-! Section: claim C9 — the plugin positional-argument contract -/

/-- Claim C9: for every successful handoff, the plugin process is executed
with exactly six positional arguments in this order: the serialized
start-session response, the signing region, the literal `"StartSession"`,
the profile name, the serialized start-session request, and the endpoint —
and it is the only exec in the handoff's trace. -/
theorem C9_plugin_positional_args
    (c : ClientModel) (params : Params) (region endpoint : String)
    (inp : StartSessionInput) (out : StartSessionOutput)
    (h : (pluginStart c params region endpoint inp out).2 = .ok ()) :
    (pluginStart c params region endpoint inp out).1.filter Event.isExecCommand =
      [Event.execCommand "session-manager-plugin"
        [marshalStartSessionOutput out, region, "StartSession", params.Profile,
         marshalStartSessionInput inp, endpoint]] := by
  unfold pluginStart ignoreUserSignals pluginArgs
  dsimp only
  split <;> split <;>
    simp [List.filter, Event.isExecCommand, pluginArgs]

def C9client : ClientModel :=
  { describeInstances := fun _ => .ok {},
    sendSSHPublicKey := fun _ => .ok (),
    ssmStartSession := fun _ => .ok {},
    lookPath := fun _ => .ok "/usr/local/bin/session-manager-plugin",
    runCommand := fun _ _ => .ok () }

/-- Claim C9 witness: the theorem applied at a concrete successful handoff. -/
theorem C9_witness :
    (pluginStart C9client {} "r" "e" {} {}).2 = .ok () ∧
    (pluginStart C9client {} "r" "e" {} {}).1.filter Event.isExecCommand =
      [Event.execCommand "session-manager-plugin"
        [marshalStartSessionOutput {}, "r", "StartSession", "",
         marshalStartSessionInput {}, "e"]] :=
  ⟨rfl, C9_plugin_positional_args C9client {} "r" "e" {} {} rfl⟩

/-! Section: claim C10 — signal suppression scope around the child process -/

/-- Claim C10: during the child plugin process's execution the parent
ignores SIGINT on Windows, and SIGINT, SIGQUIT, SIGTSTP elsewhere; the
handoff trace is exactly ignore–exec–reset, so the prior disposition is
restored exactly once after the child exits — on every exit path, since
this equality holds for every outcome of the child (`runCommand` is
unconstrained). -/
theorem C10_signal_suppression_scope
    (c : ClientModel) (params : Params) (region endpoint : String)
    (inp : StartSessionInput) (out : StartSessionOutput) :
    (pluginStart c params region endpoint inp out).1 =
      [Event.signalIgnore (if c.goos == "windows" then [Signal.SIGINT]
         else [Signal.SIGINT, Signal.SIGQUIT, Signal.SIGTSTP]),
       Event.execCommand "session-manager-plugin"
         (pluginArgs params region endpoint inp out),
       Event.signalReset (if c.goos == "windows" then [Signal.SIGINT]
         else [Signal.SIGINT, Signal.SIGQUIT, Signal.SIGTSTP])] := by
  unfold pluginStart ignoreUserSignals
  dsimp only
  split <;> split <;> rfl

end Ec2SshProxy
